import Mathlib

/-!
Verification of the bond valuation calculator.

The development embeds, over exact rationals, the parts of the program the
claims refer to:

* the input-validation module (`validateField`, `validateAllInputs`,
  `hasErrors` from the validation module bundled in `src/modules/table.js`);
* the valuation engine `calculateBondMetrics`; the module
  `modules/calculations.js` is imported by `src/calculator.js` but its source
  is not part of the repository snapshot, so the engine is modelled from the
  specification (each such definition is marked in its doc comment);
* the state-update logic of `updateCalculations` and the per-field input
  handler of `setupInputListeners` from `src/calculator.js`.

JavaScript numbers are modelled by `ℚ` (plus explicit `NaN` / missing-value
markers where the validation code distinguishes them), so every identity the
source satisfies up to floating-point rounding is proved exactly here.
-/

/-! ## Validation module (from the validation module in `src/modules/table.js`) -/

/-- Names of the scalar input fields of the calculator. -/
inductive InputField where
  | couponRate
  | ytm
  | years
  | faceValue
  | frequency
deriving DecidableEq

/-- Result of `parseFloat` on an input box (or an absent/null value):
either a numeric value, `NaN`, or missing (`undefined` / `null` / empty). -/
inductive JSValue where
  | undef
  | nan
  | num (q : ℚ)
deriving DecidableEq

/-- Kind of message `validateField` produces: the required-field message
or the out-of-range message. -/
inductive FieldErr where
  | required
  | range
deriving DecidableEq

/-- Bounds entry of the VALIDATION_RULES table (all three ruled fields have
required: true, so only min and max are recorded). -/
structure ValidationRule where
  min : ℚ
  max : ℚ
deriving DecidableEq

/-- The VALIDATION_RULES table: couponRate [0,10], ytm [0,10], years [1,5];
faceValue and frequency have no entry. -/
def validationRules : InputField → Option ValidationRule
  | InputField.couponRate => some ⟨0, 10⟩
  | InputField.ytm => some ⟨0, 10⟩
  | InputField.years => some ⟨1, 5⟩
  | _ => none

/-- Embedding of `validateField(field, value)`: no rules gives null; a missing
or NaN value of a required field gives the required message; a value below
min or above max gives the range message; otherwise null. -/
def validateField (field : InputField) (value : JSValue) : Option FieldErr :=
  match validationRules field with
  | none => none
  | some rules =>
    match value with
    | JSValue.undef => some FieldErr.required
    | JSValue.nan => some FieldErr.required
    | JSValue.num q =>
      if q < rules.min then some FieldErr.range
      else if q > rules.max then some FieldErr.range
      else none

/-- Accumulate the error entry of one field, as `validateAllInputs` does per
key of VALIDATION_RULES. -/
def collectError (f : InputField) (v : JSValue) : List (InputField × FieldErr) :=
  match validateField f v with
  | some e => [(f, e)]
  | none => []

/-- Embedding of `validateAllInputs`: iterates over the keys of
VALIDATION_RULES (couponRate, ytm, years) and collects the field errors. -/
def validateAllInputs (couponRate ytm years : JSValue) : List (InputField × FieldErr) :=
  collectError InputField.couponRate couponRate ++ collectError InputField.ytm ytm ++
    collectError InputField.years years

/-- Embedding of `hasErrors(errors)`: the error mapping is non-empty. -/
def hasErrors (errors : List (InputField × FieldErr)) : Bool :=
  !errors.isEmpty

/-! ## Valuation engine (modelled from the spec) -/

/-- Modelled from the spec: the BondType tagged variant produced by the
engine in the missing `modules/calculations.js` — par, premium or discount,
each carrying a display description and, for premium/discount, the
difference from face value. -/
inductive BondType where
  | par (description : String)
  | premium (description : String) (difference : ℚ)
  | discount (description : String) (difference : ℚ)
deriving DecidableEq

/-- Display string of a par bond, as consumed by `createAnalysisBox`. -/
def parDescription : String := "Par bond"

/-- Display string of a premium bond, as consumed by `createAnalysisBox`. -/
def premiumDescription : String := "Premium bond"

/-- Display string of a discount bond, as consumed by `createAnalysisBox`. -/
def discountDescription : String := "Discount bond"

/-- Modelled from the spec: one CashFlow entry of the schedule built by the
missing `modules/calculations.js`. -/
structure CashFlow where
  period : ℕ
  yearLabel : ℚ
  couponPayment : ℚ
  principalPayment : ℚ
  totalCashFlow : ℚ
deriving DecidableEq

/-- Modelled from the spec: the ValuationResult structure returned by
`calculateBondMetrics` in the missing `modules/calculations.js`. -/
structure BondCalculations where
  bondPrice : ℚ
  cashFlows : List CashFlow
  periods : ℕ
  periodicCoupon : ℚ
  periodicYield : ℚ
  pvCoupons : ℚ
  pvFaceValue : ℚ
  bondType : BondType
deriving DecidableEq

/-- Modelled from the spec: step 4 of the algorithm — the accumulated sum of
discounted coupons C / (1+r)^i for i = 1..n. -/
def discountedCouponSum (C r : ℚ) : ℕ → ℚ
  | 0 => 0
  | n + 1 => discountedCouponSum C r n + C / (1 + r) ^ (n + 1)

/-- Modelled from the spec: step 1 — periods = years * frequency. -/
def bondPeriods (years frequency : ℕ) : ℕ := years * frequency

/-- Modelled from the spec: step 2 — periodicCoupon =
faceValue * (couponRate / 100) / frequency. -/
def periodicCouponOf (faceValue couponRate : ℚ) (frequency : ℕ) : ℚ :=
  faceValue * (couponRate / 100) / (frequency : ℚ)

/-- Modelled from the spec: step 3 — periodicYield = (ytm / 100) / frequency. -/
def periodicYieldOf (ytm : ℚ) (frequency : ℕ) : ℚ :=
  ytm / 100 / (frequency : ℚ)

/-- Modelled from the spec: step 4 — the present value of all coupons. -/
def pvCouponsOf (faceValue couponRate ytm : ℚ) (years frequency : ℕ) : ℚ :=
  discountedCouponSum (periodicCouponOf faceValue couponRate frequency)
    (periodicYieldOf ytm frequency) (bondPeriods years frequency)

/-- Modelled from the spec: step 5 — pvFaceValue =
faceValue / (1 + periodicYield) ^ periods. -/
def pvFaceValueOf (faceValue ytm : ℚ) (years frequency : ℕ) : ℚ :=
  faceValue / (1 + periodicYieldOf ytm frequency) ^ bondPeriods years frequency

/-- Modelled from the spec: step 6 — bondPrice = pvCoupons + pvFaceValue. -/
def bondPriceOf (faceValue couponRate ytm : ℚ) (years frequency : ℕ) : ℚ :=
  pvCouponsOf faceValue couponRate ytm years frequency +
    pvFaceValueOf faceValue ytm years frequency

/-- Modelled from the spec: the epsilon of step 8's classification; the spec
fixes the explicit tolerance 0.005. -/
def bondEpsilon : ℚ := 5 / 1000

/-- Modelled from the spec: step 8 — classify the bond by comparing price to
face value with tolerance `bondEpsilon`. -/
def classifyBond (bondPrice faceValue : ℚ) : BondType :=
  if |bondPrice - faceValue| < bondEpsilon then BondType.par parDescription
  else if bondPrice > faceValue then
    BondType.premium premiumDescription (bondPrice - faceValue)
  else BondType.discount discountDescription (faceValue - bondPrice)

/-- Modelled from the spec: the period-0 entry of step 7 — the purchase
outflow, with no coupon. -/
def purchaseCashFlow (bondPrice : ℚ) (frequency : ℕ) : CashFlow :=
  { period := 0
    yearLabel := (0 : ℚ) / (frequency : ℚ)
    couponPayment := 0
    principalPayment := -bondPrice
    totalCashFlow := 0 + -bondPrice }

/-- Modelled from the spec: the entry of step 7 for period p ≥ 1 — coupon in
every period, the face value repaid in the final one. -/
def laterCashFlow (periodicCoupon faceValue : ℚ) (periods frequency p : ℕ) : CashFlow :=
  { period := p
    yearLabel := (p : ℚ) / (frequency : ℚ)
    couponPayment := periodicCoupon
    principalPayment := if p = periods then faceValue else 0
    totalCashFlow := periodicCoupon + if p = periods then faceValue else 0 }

/-- Modelled from the spec: step 7 — the chronological cash-flow sequence,
period 0 through period `periods`. -/
def mkCashFlows (bondPrice periodicCoupon faceValue : ℚ) (periods frequency : ℕ) :
    List CashFlow :=
  purchaseCashFlow bondPrice frequency ::
    (List.range periods).map (fun i => laterCashFlow periodicCoupon faceValue periods frequency (i + 1))

/-- Modelled from the spec: `calculateBondMetrics` of the missing
`modules/calculations.js`, assembled from steps 1-8 of the algorithm in §4.1. -/
def calculateBondMetrics (faceValue couponRate ytm : ℚ) (years frequency : ℕ) :
    BondCalculations :=
  { bondPrice := bondPriceOf faceValue couponRate ytm years frequency
    cashFlows := mkCashFlows (bondPriceOf faceValue couponRate ytm years frequency)
      (periodicCouponOf faceValue couponRate frequency) faceValue
      (bondPeriods years frequency) frequency
    periods := bondPeriods years frequency
    periodicCoupon := periodicCouponOf faceValue couponRate frequency
    periodicYield := periodicYieldOf ytm frequency
    pvCoupons := pvCouponsOf faceValue couponRate ytm years frequency
    pvFaceValue := pvFaceValueOf faceValue ytm years frequency
    bondType := classifyBond (bondPriceOf faceValue couponRate ytm years frequency) faceValue }

/-- Valid input domain of the spec's §3 range table: faceValue > 0, rates in
[0, 10], years in [1, 5] (integrality is carried by the ℕ type), frequency a
positive integer. -/
def ValidInputs (faceValue couponRate ytm : ℚ) (years frequency : ℕ) : Prop :=
  0 < faceValue ∧ 0 ≤ couponRate ∧ couponRate ≤ 10 ∧ 0 ≤ ytm ∧ ytm ≤ 10 ∧
    1 ≤ years ∧ years ≤ 5 ∧ 1 ≤ frequency

instance (faceValue couponRate ytm : ℚ) (years frequency : ℕ) :
    Decidable (ValidInputs faceValue couponRate ytm years frequency) := by
  unfold ValidInputs
  infer_instance

/-! ## Application state and update logic (from `src/calculator.js`) -/

/-- Application state as held by the state module: the five inputs (coupon
rate, ytm and years as raw parsed values from their input boxes; face value
and frequency are fixed by the initial state), the validation-error mapping,
the latest calculation result, and the view-mode flag. -/
structure AppState where
  couponRate : JSValue
  ytm : JSValue
  years : JSValue
  faceValue : ℚ
  frequency : ℕ
  errors : List (InputField × FieldErr)
  bondCalculations : Option BondCalculations
  viewChart : Bool
deriving DecidableEq

/-- Remove a field's entry from the error mapping (the `delete errors[field]`
branch of the input listener). -/
def eraseError (errors : List (InputField × FieldErr)) (f : InputField) : List (InputField × FieldErr) :=
  errors.filter (fun p => p.1 != f)

/-- Conversion a state-held input undergoes when handed to the engine; on the
no-errors path every ruled field holds a numeric value. -/
def jsToRat : JSValue → ℚ
  | JSValue.num q => q
  | _ => 0

/-- Modelled from the spec: whole-period policy for the years input handed to
the engine — truncation toward zero, the documented rounding rule of §4.1
step 1 (the engine source is missing). On the valid domain years is integral
and this is exact. -/
def ratYearsToNat (q : ℚ) : ℕ := q.floor.toNat

/-- Core of `updateCalculations` in `src/calculator.js`, parametric in the
outcome of the `calculateBondMetrics` call so the catch branch is
representable: with validation errors present the stored result is set to
null and the engine result is never consulted; otherwise an ok result is
stored and a thrown error is caught and stores null. -/
def updateCalculationsWith (result : Except String BondCalculations) (s : AppState) :
    AppState :=
  if hasErrors s.errors then { s with bondCalculations := none }
  else
    match result with
    | Except.ok calcs => { s with bondCalculations := some calcs }
    | Except.error _ => { s with bondCalculations := none }

/-- The engine call `updateCalculations` makes from the current state. -/
def engineOfState (s : AppState) : BondCalculations :=
  calculateBondMetrics s.faceValue (jsToRat s.couponRate) (jsToRat s.ytm)
    (ratYearsToNat (jsToRat s.years)) s.frequency

/-- Embedding of `updateCalculations` of `src/calculator.js`; the modelled
engine is total on the state it receives, so the normal path is the ok case. -/
def updateCalculations (s : AppState) : AppState :=
  updateCalculationsWith (Except.ok (engineOfState s)) s

/-- Write a changed input value into the state (`setState({[field]: value})`);
only couponRate, ytm and years have input boxes. -/
def setInputField (s : AppState) (f : InputField) (v : JSValue) : AppState :=
  match f with
  | InputField.couponRate => { s with couponRate := v }
  | InputField.ytm => { s with ytm := v }
  | InputField.years => { s with years := v }
  | _ => s

/-- Error mapping produced by the debounced input listener of
`setupInputListeners`: insert the field error when `validateField` reports
one, delete the field's entry otherwise. -/
def handleInputErrors (s : AppState) (f : InputField) (v : JSValue) :
    List (InputField × FieldErr) :=
  match validateField f v with
  | some e => (f, e) :: eraseError s.errors f
  | none => eraseError s.errors f

/-- Embedding of the debounced input listener of `setupInputListeners` in
`src/calculator.js`: validate the field, update the error mapping and the
stored input, then recalculate only when the mapping is empty. -/
def handleInput (s : AppState) (f : InputField) (v : JSValue) : AppState :=
  if hasErrors (handleInputErrors s f v) then
    { setInputField s f v with errors := handleInputErrors s f v }
  else updateCalculations { setInputField s f v with errors := handleInputErrors s f v }

/-- Initial application state of the state module: couponRate 6, ytm 6,
years 5, faceValue 100, frequency 2, no errors, no stored result. -/
def initialState : AppState :=
  { couponRate := JSValue.num 6
    ytm := JSValue.num 6
    years := JSValue.num 5
    faceValue := 100
    frequency := 2
    errors := []
    bondCalculations := none
    viewChart := true }

/-- State after the initial `updateCalculations()` call of `init()`: a valid
calculation result is stored. -/
def calculatedState : AppState := updateCalculations initialState

/-! ## Arithmetic helper lemmas -/

lemma discountedCouponSum_mul (C r : ℚ) (n : ℕ) :
    discountedCouponSum C r n = C * discountedCouponSum 1 r n := by
  induction n with
  | zero => simp [discountedCouponSum]
  | succ n ih =>
    simp only [discountedCouponSum, ih]
    ring

lemma discountedCouponSum_nonneg (C r : ℚ) (hC : 0 ≤ C) (hr : 0 ≤ r) (n : ℕ) :
    0 ≤ discountedCouponSum C r n := by
  induction n with
  | zero => simp [discountedCouponSum]
  | succ n ih =>
    have h1 : (0 : ℚ) < 1 + r := by linarith
    have hterm : 0 ≤ C / (1 + r) ^ (n + 1) := div_nonneg hC (le_of_lt (pow_pos h1 _))
    simp only [discountedCouponSum]
    linarith

lemma discountedCouponSum_pos (C r : ℚ) (hC : 0 < C) (hr : 0 ≤ r) {n : ℕ} (hn : 1 ≤ n) :
    0 < discountedCouponSum C r n := by
  cases n with
  | zero => exact absurd hn (by omega)
  | succ n =>
    have h1 : (0 : ℚ) < 1 + r := by linarith
    have hterm : 0 < C / (1 + r) ^ (n + 1) := div_pos hC (pow_pos h1 _)
    have hrest := discountedCouponSum_nonneg C r (le_of_lt hC) hr n
    simp only [discountedCouponSum]
    linarith

lemma discountedCouponSum_zero_rate (C : ℚ) (n : ℕ) :
    discountedCouponSum C 0 n = C * n := by
  induction n with
  | zero => simp [discountedCouponSum]
  | succ n ih =>
    simp only [discountedCouponSum, ih, add_zero, one_pow, div_one]
    push_cast
    ring

lemma discountedCouponSum_anti (C r1 r2 : ℚ) (hC : 0 ≤ C) (h0 : 0 ≤ r1) (h12 : r1 ≤ r2)
    (n : ℕ) : discountedCouponSum C r2 n ≤ discountedCouponSum C r1 n := by
  induction n with
  | zero => simp [discountedCouponSum]
  | succ n ih =>
    have h1 : (0 : ℚ) < 1 + r1 := by linarith
    have h2 : (0 : ℚ) < 1 + r2 := by linarith
    have hp1 : (0 : ℚ) < (1 + r1) ^ (n + 1) := pow_pos h1 _
    have hp2 : (0 : ℚ) < (1 + r2) ^ (n + 1) := pow_pos h2 _
    have hle : (1 + r1) ^ (n + 1) ≤ (1 + r2) ^ (n + 1) :=
      pow_le_pow_left₀ (le_of_lt h1) (by linarith) _
    have hterm : C / (1 + r2) ^ (n + 1) ≤ C / (1 + r1) ^ (n + 1) := by
      rw [div_le_div_iff₀ hp2 hp1]
      exact mul_le_mul_of_nonneg_left hle hC
    simp only [discountedCouponSum]
    linarith

lemma par_price_aux (F r : ℚ) (h1 : (0 : ℚ) < 1 + r) (n : ℕ) :
    discountedCouponSum (F * r) r n + F / (1 + r) ^ n = F := by
  induction n with
  | zero => simp [discountedCouponSum]
  | succ n ih =>
    have hne : (1 + r : ℚ) ≠ 0 := ne_of_gt h1
    have hpow : ((1 + r : ℚ)) ^ n ≠ 0 := pow_ne_zero _ hne
    have key : F * r / (1 + r) ^ (n + 1) + F / (1 + r) ^ (n + 1) = F / (1 + r) ^ n := by
      rw [div_add_div_same, pow_succ]
      field_simp
      ring
    simp only [discountedCouponSum]
    rw [add_assoc, key, ih]

/-! ## Engine-level lemmas -/

@[simp] lemma calculateBondMetrics_bondPrice (F c y : ℚ) (yr m : ℕ) :
    (calculateBondMetrics F c y yr m).bondPrice = bondPriceOf F c y yr m := rfl

@[simp] lemma calculateBondMetrics_pvCoupons (F c y : ℚ) (yr m : ℕ) :
    (calculateBondMetrics F c y yr m).pvCoupons = pvCouponsOf F c y yr m := rfl

@[simp] lemma calculateBondMetrics_pvFaceValue (F c y : ℚ) (yr m : ℕ) :
    (calculateBondMetrics F c y yr m).pvFaceValue = pvFaceValueOf F y yr m := rfl

@[simp] lemma calculateBondMetrics_periods (F c y : ℚ) (yr m : ℕ) :
    (calculateBondMetrics F c y yr m).periods = bondPeriods yr m := rfl

@[simp] lemma calculateBondMetrics_periodicCoupon (F c y : ℚ) (yr m : ℕ) :
    (calculateBondMetrics F c y yr m).periodicCoupon = periodicCouponOf F c m := rfl

@[simp] lemma calculateBondMetrics_periodicYield (F c y : ℚ) (yr m : ℕ) :
    (calculateBondMetrics F c y yr m).periodicYield = periodicYieldOf y m := rfl

@[simp] lemma calculateBondMetrics_bondType (F c y : ℚ) (yr m : ℕ) :
    (calculateBondMetrics F c y yr m).bondType =
      classifyBond (bondPriceOf F c y yr m) F := rfl

@[simp] lemma calculateBondMetrics_cashFlows (F c y : ℚ) (yr m : ℕ) :
    (calculateBondMetrics F c y yr m).cashFlows =
      mkCashFlows (bondPriceOf F c y yr m) (periodicCouponOf F c m) F
        (bondPeriods yr m) m := rfl

lemma periodicYieldOf_nonneg {y : ℚ} (m : ℕ) (hy : 0 ≤ y) : 0 ≤ periodicYieldOf y m :=
  div_nonneg (div_nonneg hy (by norm_num)) (Nat.cast_nonneg m)

lemma periodicCouponOf_nonneg {F c : ℚ} (m : ℕ) (hF : 0 ≤ F) (hc : 0 ≤ c) :
    0 ≤ periodicCouponOf F c m :=
  div_nonneg (mul_nonneg hF (div_nonneg hc (by norm_num))) (Nat.cast_nonneg m)

lemma freq_cast_pos {m : ℕ} (hm : 1 ≤ m) : (0 : ℚ) < (m : ℚ) := by
  exact_mod_cast Nat.lt_of_lt_of_le Nat.zero_lt_one hm

lemma periodicYieldOf_strict_mono {y1 y2 : ℚ} {m : ℕ} (hm : 1 ≤ m) (h : y1 < y2) :
    periodicYieldOf y1 m < periodicYieldOf y2 m := by
  have hmq : (0 : ℚ) < (m : ℚ) := freq_cast_pos hm
  have h100 : y1 / 100 < y2 / 100 := by linarith
  unfold periodicYieldOf
  exact div_lt_div_of_pos_right h100 hmq

lemma periodicCouponOf_strict_mono {F c1 c2 : ℚ} {m : ℕ} (hF : 0 < F) (hm : 1 ≤ m)
    (h : c1 < c2) : periodicCouponOf F c1 m < periodicCouponOf F c2 m := by
  have hmq : (0 : ℚ) < (m : ℚ) := freq_cast_pos hm
  have hmul : F * (c1 / 100) < F * (c2 / 100) := by
    have : c1 / 100 < c2 / 100 := by linarith
    exact (mul_lt_mul_left hF).mpr this
  unfold periodicCouponOf
  exact div_lt_div_of_pos_right hmul hmq

lemma bondPeriods_pos {yr m : ℕ} (hyr : 1 ≤ yr) (hm : 1 ≤ m) : 1 ≤ bondPeriods yr m := by
  unfold bondPeriods
  exact Nat.one_le_iff_ne_zero.mpr (Nat.mul_ne_zero (by omega) (by omega))

lemma bondPriceOf_par (F y : ℚ) (yr m : ℕ) (hy : 0 ≤ y) : bondPriceOf F y y yr m = F := by
  have hr : 0 ≤ periodicYieldOf y m := periodicYieldOf_nonneg m hy
  have h1 : (0 : ℚ) < 1 + periodicYieldOf y m := by linarith
  have hC : periodicCouponOf F y m = F * periodicYieldOf y m := by
    unfold periodicCouponOf periodicYieldOf
    ring
  unfold bondPriceOf pvCouponsOf pvFaceValueOf
  rw [hC]
  exact par_price_aux F _ h1 _

lemma bondPriceOf_zero_yield (F c : ℚ) (yr m : ℕ) (hm : 1 ≤ m) :
    bondPriceOf F c 0 yr m = F + c / 100 * F * (yr : ℚ) := by
  have hm0 : (m : ℚ) ≠ 0 := ne_of_gt (freq_cast_pos hm)
  have hy0 : periodicYieldOf 0 m = 0 := by
    unfold periodicYieldOf
    simp
  unfold bondPriceOf pvCouponsOf pvFaceValueOf
  rw [hy0, discountedCouponSum_zero_rate]
  unfold periodicCouponOf bondPeriods
  push_cast
  field_simp
  ring

lemma bondPriceOf_ytm_strict_anti (F c y1 y2 : ℚ) (yr m : ℕ) (hF : 0 < F) (hc : 0 ≤ c)
    (hy1 : 0 ≤ y1) (h12 : y1 < y2) (hyr : 1 ≤ yr) (hm : 1 ≤ m) :
    bondPriceOf F c y2 yr m < bondPriceOf F c y1 yr m := by
  have hr1 : 0 ≤ periodicYieldOf y1 m := periodicYieldOf_nonneg m hy1
  have hr12 : periodicYieldOf y1 m < periodicYieldOf y2 m := periodicYieldOf_strict_mono hm h12
  have hC : 0 ≤ periodicCouponOf F c m := periodicCouponOf_nonneg m (le_of_lt hF) hc
  have hcoupons : pvCouponsOf F c y2 yr m ≤ pvCouponsOf F c y1 yr m :=
    discountedCouponSum_anti _ _ _ hC hr1 (le_of_lt hr12) _
  have h1 : (0 : ℚ) < 1 + periodicYieldOf y1 m := by linarith
  have h2 : (0 : ℚ) < 1 + periodicYieldOf y2 m := by linarith
  have hn : bondPeriods yr m ≠ 0 := by
    have := bondPeriods_pos hyr hm
    omega
  have hplt : (1 + periodicYieldOf y1 m) ^ bondPeriods yr m <
      (1 + periodicYieldOf y2 m) ^ bondPeriods yr m :=
    pow_lt_pow_left₀ (by linarith) (le_of_lt h1) hn
  have hface : pvFaceValueOf F y2 yr m < pvFaceValueOf F y1 yr m := by
    unfold pvFaceValueOf
    rw [div_lt_div_iff₀ (pow_pos h2 _) (pow_pos h1 _)]
    exact (mul_lt_mul_left hF).mpr hplt
  unfold bondPriceOf
  exact add_lt_add_of_le_of_lt hcoupons hface

lemma bondPriceOf_coupon_strict_mono (F c1 c2 y : ℚ) (yr m : ℕ) (hF : 0 < F)
    (h12 : c1 < c2) (hy : 0 ≤ y) (hyr : 1 ≤ yr) (hm : 1 ≤ m) :
    bondPriceOf F c1 y yr m < bondPriceOf F c2 y yr m := by
  have hr : 0 ≤ periodicYieldOf y m := periodicYieldOf_nonneg m hy
  have hS : 0 < discountedCouponSum 1 (periodicYieldOf y m) (bondPeriods yr m) :=
    discountedCouponSum_pos 1 _ one_pos hr (bondPeriods_pos hyr hm)
  have hcoupons : pvCouponsOf F c1 y yr m < pvCouponsOf F c2 y yr m := by
    unfold pvCouponsOf
    rw [discountedCouponSum_mul (periodicCouponOf F c1 m),
      discountedCouponSum_mul (periodicCouponOf F c2 m)]
    exact (mul_lt_mul_right hS).mpr (periodicCouponOf_strict_mono hF hm h12)
  unfold bondPriceOf
  exact add_lt_add_of_lt_of_le hcoupons (le_refl _)

lemma classifyBond_of_par {p F : ℚ} (h : |p - F| < bondEpsilon) :
    classifyBond p F = BondType.par parDescription := by
  unfold classifyBond
  rw [if_pos h]

lemma classifyBond_of_premium {p F : ℚ} (h1 : ¬ |p - F| < bondEpsilon) (h2 : p > F) :
    classifyBond p F = BondType.premium premiumDescription (p - F) := by
  unfold classifyBond
  rw [if_neg h1, if_pos h2]

lemma classifyBond_of_discount {p F : ℚ} (h1 : ¬ |p - F| < bondEpsilon) (h2 : ¬ p > F) :
    classifyBond p F = BondType.discount discountDescription (F - p) := by
  unfold classifyBond
  rw [if_neg h1, if_neg h2]

/-! ## Cash-flow schedule lemmas -/

lemma mkCashFlows_length (p C Fv : ℚ) (n m : ℕ) :
    (mkCashFlows p C Fv n m).length = n + 1 := by
  simp [mkCashFlows]

lemma mkCashFlows_get (p C Fv : ℚ) (n m k : ℕ) (hk : k < (mkCashFlows p C Fv n m).length) :
    (mkCashFlows p C Fv n m).get ⟨k, hk⟩ =
      if k = 0 then purchaseCashFlow p m else laterCashFlow C Fv n m k := by
  cases k with
  | zero => rfl
  | succ j =>
    have hj : j < n := by
      have := mkCashFlows_length p C Fv n m
      omega
    simp [mkCashFlows, List.get_eq_getElem, List.getElem_cons_succ, List.getElem_map,
      List.getElem_range]

/-! ## State-update helper lemmas -/

lemma setInputField_bondCalculations (s : AppState) (f : InputField) (v : JSValue) :
    (setInputField s f v).bondCalculations = s.bondCalculations := by
  cases f <;> rfl

lemma handleInputErrors_some (s : AppState) (f : InputField) (v : JSValue)
    (e : FieldErr) (h : validateField f v = some e) :
    handleInputErrors s f v = (f, e) :: eraseError s.errors f := by
  unfold handleInputErrors
  rw [h]

lemma handleInput_error_retains (s : AppState) (f : InputField) (v : JSValue)
    (hne : validateField f v ≠ none) :
    (handleInput s f v).errors ≠ [] ∧
    (handleInput s f v).bondCalculations = s.bondCalculations := by
  cases h : validateField f v with
  | none => exact absurd h hne
  | some e =>
    unfold handleInput
    rw [handleInputErrors_some s f v e h]
    simp only [hasErrors, List.isEmpty_cons, Bool.not_false, if_true]
    exact ⟨List.cons_ne_nil _ _, setInputField_bondCalculations s f v⟩

lemma updateCalculationsWith_errors (s : AppState) (h : hasErrors s.errors = true)
    (result : Except String BondCalculations) :
    updateCalculationsWith result s = { s with bondCalculations := none } := by
  unfold updateCalculationsWith
  rw [if_pos h]

lemma updateCalculations_errors_eq (s : AppState) :
    (updateCalculations s).errors = s.errors := by
  unfold updateCalculations updateCalculationsWith
  split_ifs <;> rfl

lemma handleInput_gate (s : AppState) (f : InputField) (v : JSValue)
    (herr : hasErrors (handleInput s f v).errors = true) :
    (handleInput s f v).bondCalculations = s.bondCalculations := by
  unfold handleInput at herr ⊢
  by_cases hrest : hasErrors (handleInputErrors s f v) = true
  · rw [if_pos hrest]
    exact setInputField_bondCalculations s f v
  · rw [if_neg hrest] at herr ⊢
    rw [updateCalculations_errors_eq] at herr
    exact absurd herr hrest

/-! ## Claim theorems -/

/-- C1: for every valid input (faceValue > 0, couponRate and ytm in [0,10],
years in [1,5] integer, frequency a positive integer), the ValuationResult
satisfies bondPrice = pvCoupons + pvFaceValue (exactly, over ℚ) and
bondPrice = -cashFlows[0].principalPayment. -/
theorem c1_price_decomposition (F c y : ℚ) (yr m : ℕ) (hv : ValidInputs F c y yr m) :
    (calculateBondMetrics F c y yr m).bondPrice =
        (calculateBondMetrics F c y yr m).pvCoupons +
          (calculateBondMetrics F c y yr m).pvFaceValue ∧
    ∀ h0 : 0 < (calculateBondMetrics F c y yr m).cashFlows.length,
      (calculateBondMetrics F c y yr m).bondPrice =
        -(((calculateBondMetrics F c y yr m).cashFlows.get ⟨0, h0⟩).principalPayment) := by
  refine ⟨rfl, fun h0 => ?_⟩
  simp [mkCashFlows, purchaseCashFlow]

/-- C1 witness: the decomposition invariant at the concrete input
(100, 6, 6, 5, 2). -/
theorem c1_price_decomposition_witness :
    ValidInputs 100 6 6 5 2 ∧
    ((calculateBondMetrics 100 6 6 5 2).bondPrice =
        (calculateBondMetrics 100 6 6 5 2).pvCoupons +
          (calculateBondMetrics 100 6 6 5 2).pvFaceValue ∧
    ∀ h0 : 0 < (calculateBondMetrics 100 6 6 5 2).cashFlows.length,
      (calculateBondMetrics 100 6 6 5 2).bondPrice =
        -(((calculateBondMetrics 100 6 6 5 2).cashFlows.get ⟨0, h0⟩).principalPayment)) :=
  ⟨by decide, c1_price_decomposition 100 6 6 5 2 (by decide)⟩

/-- C2: for every valid input with couponRate = ytm the price equals the face
value exactly (hence within any tolerance) and the bond is classified par;
in particular this holds at faceValue=100, couponRate=6, ytm=6, years=5,
frequency=2. -/
theorem c2_par_invariant (F c y : ℚ) (yr m : ℕ) (hv : ValidInputs F c y yr m)
    (hcy : c = y) :
    (calculateBondMetrics F c y yr m).bondPrice = F ∧
    (calculateBondMetrics F c y yr m).bondType = BondType.par parDescription := by
  obtain ⟨hF, hc, -, hy, -, -, -, hm⟩ := hv
  subst hcy
  have hp : bondPriceOf F c c yr m = F := bondPriceOf_par F c yr m hy
  constructor
  · simpa using hp
  · rw [calculateBondMetrics_bondType, hp]
    apply classifyBond_of_par
    simp [bondEpsilon]

/-- C2 witness: scenario 1 — at (100, 6, 6, 5, 2) the price is exactly 100
(so certainly within 0.2 of 100) and the bond type is par. -/
theorem c2_par_invariant_witness :
    ValidInputs 100 6 6 5 2 ∧ (6 : ℚ) = 6 ∧
    ((calculateBondMetrics 100 6 6 5 2).bondPrice = 100 ∧
      (calculateBondMetrics 100 6 6 5 2).bondType = BondType.par parDescription) :=
  ⟨by decide, rfl, c2_par_invariant 100 6 6 5 2 (by decide) rfl⟩

/-- C4: for every valid input with ytm = 0 the engine is total (the model is
a total function; no division by zero occurs since the discount factor is 1)
and bondPrice = faceValue + couponRate/100*faceValue*years, with
pvCoupons = periodicCoupon * periods and pvFaceValue = faceValue. -/
theorem c4_zero_yield (F c : ℚ) (yr m : ℕ) (hv : ValidInputs F c 0 yr m) :
    (calculateBondMetrics F c 0 yr m).bondPrice = F + c / 100 * F * (yr : ℚ) ∧
    (calculateBondMetrics F c 0 yr m).pvCoupons =
      (calculateBondMetrics F c 0 yr m).periodicCoupon *
        (((calculateBondMetrics F c 0 yr m).periods : ℕ) : ℚ) ∧
    (calculateBondMetrics F c 0 yr m).pvFaceValue = F := by
  obtain ⟨hF, hc, -, -, -, hyr, -, hm⟩ := hv
  have hy0 : periodicYieldOf 0 m = 0 := by
    unfold periodicYieldOf
    simp
  refine ⟨by simpa using bondPriceOf_zero_yield F c yr m hm, ?_, ?_⟩
  · simp only [calculateBondMetrics_pvCoupons, calculateBondMetrics_periodicCoupon,
      calculateBondMetrics_periods]
    unfold pvCouponsOf
    rw [hy0, discountedCouponSum_zero_rate]
  · simp only [calculateBondMetrics_pvFaceValue]
    unfold pvFaceValueOf
    rw [hy0]
    simp

/-- C4 witness: at (100, 6, 0, 5, 2) the price is the undiscounted sum 130,
the coupons contribute 3 * 10 undiscounted and the face value is undiscounted. -/
theorem c4_zero_yield_witness :
    ValidInputs 100 6 0 5 2 ∧
    ((calculateBondMetrics 100 6 0 5 2).bondPrice = 100 + 6 / 100 * 100 * ((5 : ℕ) : ℚ) ∧
    (calculateBondMetrics 100 6 0 5 2).pvCoupons =
      (calculateBondMetrics 100 6 0 5 2).periodicCoupon *
        (((calculateBondMetrics 100 6 0 5 2).periods : ℕ) : ℚ) ∧
    (calculateBondMetrics 100 6 0 5 2).pvFaceValue = 100) :=
  ⟨by decide, c4_zero_yield 100 6 5 2 (by decide)⟩

/-- C10: the catch branch of `updateCalculations` maps a thrown engine error
to a state whose stored bondCalculations is null and whose every other field
is unchanged; the update function is total, so no exception propagates. -/
theorem c10_engine_error_caught (msg : String) (s : AppState) :
    updateCalculationsWith (Except.error msg) s = { s with bondCalculations := none } := by
  unfold updateCalculationsWith
  split_ifs <;> rfl

/-- C3: holding the other inputs fixed at valid values, bondPrice is strictly
decreasing in ytm and strictly increasing in couponRate. -/
theorem c3_price_monotonicity (F c c1 c2 y y1 y2 : ℚ) (yr m : ℕ) :
    (ValidInputs F c y1 yr m → ValidInputs F c y2 yr m → y1 < y2 →
      (calculateBondMetrics F c y2 yr m).bondPrice <
        (calculateBondMetrics F c y1 yr m).bondPrice) ∧
    (ValidInputs F c1 y yr m → ValidInputs F c2 y yr m → c1 < c2 →
      (calculateBondMetrics F c1 y yr m).bondPrice <
        (calculateBondMetrics F c2 y yr m).bondPrice) := by
  constructor
  · intro hv1 hv2 h12
    obtain ⟨hF, hc, -, hy1, -, hyr, -, hm⟩ := hv1
    simpa using bondPriceOf_ytm_strict_anti F c y1 y2 yr m hF hc hy1 h12 hyr hm
  · intro hv1 hv2 h12
    obtain ⟨hF, hc1, -, hy, -, hyr, -, hm⟩ := hv1
    simpa using bondPriceOf_coupon_strict_mono F c1 c2 y yr m hF h12 hy hyr hm

/-- C3 witness: concrete strict comparisons — raising ytm from 4 to 6 lowers
the price, raising the coupon from 4 to 8 raises the price, at faceValue 100,
years 5, frequency 2. -/
theorem c3_price_monotonicity_witness :
    ValidInputs 100 6 4 5 2 ∧ ValidInputs 100 6 6 5 2 ∧ (4 : ℚ) < 6 ∧
    ValidInputs 100 4 6 5 2 ∧ ValidInputs 100 8 6 5 2 ∧ (4 : ℚ) < 8 ∧
    (calculateBondMetrics 100 6 6 5 2).bondPrice <
      (calculateBondMetrics 100 6 4 5 2).bondPrice ∧
    (calculateBondMetrics 100 4 6 5 2).bondPrice <
      (calculateBondMetrics 100 8 6 5 2).bondPrice :=
  ⟨by decide, by decide, by norm_num, by decide, by decide, by norm_num,
    (c3_price_monotonicity 100 6 4 8 6 4 6 5 2).1 (by decide) (by decide) (by norm_num),
    (c3_price_monotonicity 100 6 4 8 6 4 6 5 2).2 (by decide) (by decide) (by norm_num)⟩

/-- C6: the bondType of every valid result is determined by comparing the
price to the face value with the epsilon tolerance: within epsilon gives the
par variant; above face gives premium carrying difference = price - face;
otherwise discount carrying difference = face - price, and in both non-par
cases the difference equals |price - face|. -/
theorem c6_bond_type_classification (F c y : ℚ) (yr m : ℕ)
    (hv : ValidInputs F c y yr m) :
    (|(calculateBondMetrics F c y yr m).bondPrice - F| < bondEpsilon →
      (calculateBondMetrics F c y yr m).bondType = BondType.par parDescription) ∧
    (¬ |(calculateBondMetrics F c y yr m).bondPrice - F| < bondEpsilon →
      (calculateBondMetrics F c y yr m).bondPrice > F →
      (calculateBondMetrics F c y yr m).bondType =
        BondType.premium premiumDescription
          ((calculateBondMetrics F c y yr m).bondPrice - F) ∧
      (calculateBondMetrics F c y yr m).bondPrice - F =
        |(calculateBondMetrics F c y yr m).bondPrice - F|) ∧
    (¬ |(calculateBondMetrics F c y yr m).bondPrice - F| < bondEpsilon →
      ¬ (calculateBondMetrics F c y yr m).bondPrice > F →
      (calculateBondMetrics F c y yr m).bondType =
        BondType.discount discountDescription
          (F - (calculateBondMetrics F c y yr m).bondPrice) ∧
      F - (calculateBondMetrics F c y yr m).bondPrice =
        |(calculateBondMetrics F c y yr m).bondPrice - F|) := by
  simp only [calculateBondMetrics_bondType, calculateBondMetrics_bondPrice]
  refine ⟨fun h => classifyBond_of_par h, fun h1 h2 => ⟨classifyBond_of_premium h1 h2, ?_⟩,
    fun h1 h2 => ⟨classifyBond_of_discount h1 h2, ?_⟩⟩
  · exact (abs_of_pos (by linarith)).symm
  · rw [abs_sub_comm]
    exact (abs_of_nonneg (by linarith [not_lt.mp h2])).symm

/-- Closed geometric form of the coupon sum, used to evaluate the model at
concrete inputs. -/
lemma discountedCouponSum_closed (C r : ℚ) (hr : r ≠ 0) (h1 : (1 : ℚ) + r ≠ 0) (n : ℕ) :
    discountedCouponSum C r n = C * (1 - 1 / (1 + r) ^ n) / r := by
  induction n with
  | zero => simp [discountedCouponSum]
  | succ n ih =>
    have hp : ((1 : ℚ) + r) ^ n ≠ 0 := pow_ne_zero _ h1
    have hp1 : ((1 : ℚ) + r) ^ (n + 1) ≠ 0 := pow_ne_zero _ h1
    simp only [discountedCouponSum, ih]
    field_simp
    ring

/-- Concrete evaluation bound: the scenario-2 premium price exceeds 108. -/
lemma premium_price_bound : (108 : ℚ) < bondPriceOf 100 8 6 5 2 := by
  unfold bondPriceOf pvCouponsOf pvFaceValueOf periodicCouponOf periodicYieldOf bondPeriods
  rw [discountedCouponSum_closed _ _ (by norm_num) (by norm_num)]
  norm_num

/-- C6 witness: scenario 2 — at (100, 8, 6, 5, 2) the price exceeds face by
more than epsilon and the result is the premium variant with difference
price - 100 = |price - 100|. -/
theorem c6_bond_type_classification_witness :
    ValidInputs 100 8 6 5 2 ∧
    ¬ |(calculateBondMetrics 100 8 6 5 2).bondPrice - 100| < bondEpsilon ∧
    (calculateBondMetrics 100 8 6 5 2).bondPrice > 100 ∧
    ((calculateBondMetrics 100 8 6 5 2).bondType =
      BondType.premium premiumDescription
        ((calculateBondMetrics 100 8 6 5 2).bondPrice - 100) ∧
    (calculateBondMetrics 100 8 6 5 2).bondPrice - 100 =
      |(calculateBondMetrics 100 8 6 5 2).bondPrice - 100|) := by
  have hb : (108 : ℚ) < bondPriceOf 100 8 6 5 2 := premium_price_bound
  have h1 : ¬ |(calculateBondMetrics 100 8 6 5 2).bondPrice - 100| < bondEpsilon := by
    simp only [calculateBondMetrics_bondPrice]
    intro h
    have habs := abs_lt.mp h
    have hub : bondPriceOf 100 8 6 5 2 - 100 < 5 / 1000 := by
      have := habs.2
      unfold bondEpsilon at this
      exact this
    linarith
  have h2 : (calculateBondMetrics 100 8 6 5 2).bondPrice > 100 := by
    simp only [calculateBondMetrics_bondPrice]
    linarith
  exact ⟨by decide, h1, h2,
    (c6_bond_type_classification 100 8 6 5 2 (by decide)).2.1 h1 h2⟩

/-- C5: for every valid input the cash-flow sequence has years*frequency + 1
entries ordered by period 0..N; entry 0 has couponPayment 0 and
principalPayment -bondPrice; entries 1..N-1 have couponPayment =
periodicCoupon and principalPayment 0; entry N has couponPayment =
periodicCoupon and principalPayment = faceValue; every entry has
totalCashFlow = couponPayment + principalPayment and
yearLabel = period / frequency. -/
theorem c5_cash_flow_schedule (F c y : ℚ) (yr m : ℕ) (hv : ValidInputs F c y yr m) :
    (calculateBondMetrics F c y yr m).cashFlows.length = yr * m + 1 ∧
    (∀ k (hk : k < (calculateBondMetrics F c y yr m).cashFlows.length),
      ((calculateBondMetrics F c y yr m).cashFlows.get ⟨k, hk⟩).period = k ∧
      ((calculateBondMetrics F c y yr m).cashFlows.get ⟨k, hk⟩).totalCashFlow =
        ((calculateBondMetrics F c y yr m).cashFlows.get ⟨k, hk⟩).couponPayment +
          ((calculateBondMetrics F c y yr m).cashFlows.get ⟨k, hk⟩).principalPayment ∧
      ((calculateBondMetrics F c y yr m).cashFlows.get ⟨k, hk⟩).yearLabel =
        (k : ℚ) / (m : ℚ)) ∧
    (∀ hk : 0 < (calculateBondMetrics F c y yr m).cashFlows.length,
      ((calculateBondMetrics F c y yr m).cashFlows.get ⟨0, hk⟩).couponPayment = 0 ∧
      ((calculateBondMetrics F c y yr m).cashFlows.get ⟨0, hk⟩).principalPayment =
        -(calculateBondMetrics F c y yr m).bondPrice) ∧
    (∀ k (hk : k < (calculateBondMetrics F c y yr m).cashFlows.length),
      1 ≤ k → k < yr * m →
      ((calculateBondMetrics F c y yr m).cashFlows.get ⟨k, hk⟩).couponPayment =
        (calculateBondMetrics F c y yr m).periodicCoupon ∧
      ((calculateBondMetrics F c y yr m).cashFlows.get ⟨k, hk⟩).principalPayment = 0) ∧
    (∀ hk : yr * m < (calculateBondMetrics F c y yr m).cashFlows.length,
      ((calculateBondMetrics F c y yr m).cashFlows.get ⟨yr * m, hk⟩).couponPayment =
        (calculateBondMetrics F c y yr m).periodicCoupon ∧
      ((calculateBondMetrics F c y yr m).cashFlows.get ⟨yr * m, hk⟩).principalPayment = F) := by
  obtain ⟨-, -, -, -, -, hyr, -, hm⟩ := hv
  have hper : 1 ≤ bondPeriods yr m := bondPeriods_pos hyr hm
  simp only [calculateBondMetrics_cashFlows, calculateBondMetrics_bondPrice,
    calculateBondMetrics_periodicCoupon]
  refine ⟨?_, ?_, ?_, ?_, ?_⟩
  · rw [mkCashFlows_length]
    rfl
  · intro k hk
    rw [mkCashFlows_get]
    cases k with
    | zero => simp [purchaseCashFlow]
    | succ j => simp [laterCashFlow]
  · intro hk
    rw [mkCashFlows_get]
    simp [purchaseCashFlow]
  · intro k hk h1 h2
    rw [mkCashFlows_get]
    have hk0 : k ≠ 0 := by omega
    have hkn : k ≠ bondPeriods yr m := by
      unfold bondPeriods
      omega
    simp [laterCashFlow, hk0, hkn]
  · intro hk
    rw [mkCashFlows_get]
    have hn0 : bondPeriods yr m ≠ 0 := by omega
    have heq : yr * m = bondPeriods yr m := rfl
    rw [heq]
    simp [laterCashFlow, hn0]

/-- C5 witness: at (100, 6, 6, 5, 2) the schedule has exactly 11 entries,
and the period-0 entry carries no coupon and the negative bond price. -/
theorem c5_cash_flow_schedule_witness :
    ValidInputs 100 6 6 5 2 ∧
    (calculateBondMetrics 100 6 6 5 2).cashFlows.length = 5 * 2 + 1 ∧
    ∀ hk : 0 < (calculateBondMetrics 100 6 6 5 2).cashFlows.length,
      ((calculateBondMetrics 100 6 6 5 2).cashFlows.get ⟨0, hk⟩).couponPayment = 0 ∧
      ((calculateBondMetrics 100 6 6 5 2).cashFlows.get ⟨0, hk⟩).principalPayment =
        -(calculateBondMetrics 100 6 6 5 2).bondPrice :=
  ⟨by decide, (c5_cash_flow_schedule 100 6 6 5 2 (by decide)).1,
    (c5_cash_flow_schedule 100 6 6 5 2 (by decide)).2.2.1⟩

/-- C7 counterexample: the validator does not enforce the full §3 range
table — a non-integer years value inside (1,5) produces no error, a
non-positive faceValue produces no error, and a zero frequency produces no
error, although the claim requires a field error in each of these cases. -/
theorem c7_validator_counterexample :
    validateField InputField.years (JSValue.num (7 / 2)) = none ∧
    (∀ n : ℤ, (7 : ℚ) / 2 ≠ (n : ℚ)) ∧
    validateField InputField.faceValue (JSValue.num (-1)) = none ∧
    ¬ (0 : ℚ) < -1 ∧
    validateField InputField.frequency (JSValue.num 0) = none := by
  refine ⟨?_, ?_, rfl, by norm_num, rfl⟩
  · show (if (7 : ℚ) / 2 < 1 then some FieldErr.range
      else if (7 : ℚ) / 2 > 5 then some FieldErr.range else none) = none
    rw [if_neg (by norm_num), if_neg (by norm_num)]
  · intro n h
    have h2 : (7 : ℚ) = 2 * (n : ℚ) := by linarith
    have h3 : (7 : ℤ) = 2 * n := by exact_mod_cast h2
    omega

/-- C7 amended: the validator checks only couponRate, ytm and years, each
against its min/max bounds ([0,10], [0,10], [1,5]) with no integrality
check; faceValue and frequency are never validated; and the engine is
invoked only when the error mapping is empty — with errors present the
stored result is cleared without consulting any engine outcome, and an
input event that leaves the mapping non-empty never changes the stored
result. -/
theorem c7_validator_amended :
    (∀ q : ℚ, validateField InputField.couponRate (JSValue.num q) = none ↔ 0 ≤ q ∧ q ≤ 10) ∧
    (∀ q : ℚ, validateField InputField.ytm (JSValue.num q) = none ↔ 0 ≤ q ∧ q ≤ 10) ∧
    (∀ q : ℚ, validateField InputField.years (JSValue.num q) = none ↔ 1 ≤ q ∧ q ≤ 5) ∧
    (∀ v, validateField InputField.faceValue v = none) ∧
    (∀ v, validateField InputField.frequency v = none) ∧
    (∀ s result, hasErrors s.errors = true →
      updateCalculationsWith result s = { s with bondCalculations := none }) ∧
    (∀ s f v, hasErrors (handleInput s f v).errors = true →
      (handleInput s f v).bondCalculations = s.bondCalculations) := by
  have hbounds : ∀ (lo hi q : ℚ),
      (if q < lo then some FieldErr.range
        else if q > hi then some FieldErr.range else none) = none ↔ lo ≤ q ∧ q ≤ hi := by
    intro lo hi q
    split_ifs with h1 h2
    · exact iff_of_false (by simp) (fun hq => absurd hq.1 (not_le.mpr h1))
    · exact iff_of_false (by simp) (fun hq => absurd hq.2 (not_le.mpr h2))
    · exact iff_of_true rfl ⟨not_lt.mp h1, not_lt.mp h2⟩
  refine ⟨fun q => hbounds 0 10 q, fun q => hbounds 0 10 q, fun q => hbounds 1 5 q,
    fun v => rfl, fun v => rfl, fun s result h => updateCalculationsWith_errors s h result,
    fun s f v herr => handleInput_gate s f v herr⟩

/-- C7 amended witness: concrete instances — years 3 passes its bounds,
years 0 fails them, faceValue is never validated, and with an error present
the stored result is cleared for any engine outcome. -/
theorem c7_validator_amended_witness :
    (validateField InputField.years (JSValue.num 3) = none ↔ (1 : ℚ) ≤ 3 ∧ (3 : ℚ) ≤ 5) ∧
    validateField InputField.faceValue JSValue.nan = none ∧
    ∀ result, hasErrors calculatedState.errors = true →
      updateCalculationsWith result calculatedState =
        { calculatedState with bondCalculations := none } :=
  ⟨c7_validator_amended.2.2.1 3, c7_validator_amended.2.2.2.1 JSValue.nan,
    fun result h => c7_validator_amended.2.2.2.2.2.1 calculatedState result h⟩

/-- C8 counterexample: starting from the state produced by the initial
calculation, entering an out-of-range ytm of 20 makes the error mapping
non-empty, yet the previously stored ValuationResult is retained unchanged
(in particular it is not cleared to none), contradicting the claim that the
stored result is cleared whenever the inputs become invalid. -/
theorem c8_stale_result_counterexample :
    (handleInput calculatedState InputField.ytm (JSValue.num 20)).errors ≠ [] ∧
    (handleInput calculatedState InputField.ytm (JSValue.num 20)).bondCalculations =
      calculatedState.bondCalculations ∧
    calculatedState.bondCalculations ≠ none := by
  refine ⟨by decide, rfl, by decide⟩

/-- C8 amended: an input event that produces a field error leaves the error
mapping non-empty and retains the previously stored ValuationResult
unchanged (the listener skips recalculation when errors are present); the
stored result is cleared to none only when `updateCalculations` itself runs
while the error mapping is non-empty. -/
theorem c8_stale_result_amended (s : AppState) (f : InputField) (v : JSValue) :
    (validateField f v ≠ none →
      (handleInput s f v).errors ≠ [] ∧
      (handleInput s f v).bondCalculations = s.bondCalculations) ∧
    (hasErrors s.errors = true →
      (updateCalculations s).bondCalculations = none) := by
  constructor
  · exact handleInput_error_retains s f v
  · intro h
    unfold updateCalculations
    rw [updateCalculationsWith_errors s h]

/-- C8 amended witness: the out-of-range ytm event at the initially
calculated state exhibits both the non-empty mapping and the retained
result. -/
theorem c8_stale_result_amended_witness :
    validateField InputField.ytm (JSValue.num 20) ≠ none ∧
    ((handleInput calculatedState InputField.ytm (JSValue.num 20)).errors ≠ [] ∧
      (handleInput calculatedState InputField.ytm (JSValue.num 20)).bondCalculations =
        calculatedState.bondCalculations) :=
  ⟨by decide,
    (c8_stale_result_amended calculatedState InputField.ytm (JSValue.num 20)).1 (by decide)⟩

/-- C9: for each of the required fields couponRate, ytm and years, a missing
or non-numeric value makes `validateField` return the required-field message
(some required — never null and never the range message), the resulting
error mapping is non-empty, and the engine is not invoked: the stored
result is left untouched. -/
theorem c9_required_error (f : InputField) (v : JSValue) (s : AppState)
    (hf : f = InputField.couponRate ∨ f = InputField.ytm ∨ f = InputField.years)
    (hv : v = JSValue.undef ∨ v = JSValue.nan) :
    validateField f v = some FieldErr.required ∧
    (handleInput s f v).errors ≠ [] ∧
    (handleInput s f v).bondCalculations = s.bondCalculations := by
  have hval : validateField f v = some FieldErr.required := by
    rcases hf with rfl | rfl | rfl <;> rcases hv with rfl | rfl <;> rfl
  have hne : validateField f v ≠ none := by
    rw [hval]
    intro hc
    cases hc
  exact ⟨hval, handleInput_error_retains s f v hne⟩

/-- C9 witness: a missing couponRate at the initially calculated state gives
the required error and the engine is not invoked. -/
theorem c9_required_error_witness :
    validateField InputField.couponRate JSValue.undef = some FieldErr.required ∧
    (handleInput calculatedState InputField.couponRate JSValue.undef).errors ≠ [] ∧
    (handleInput calculatedState InputField.couponRate JSValue.undef).bondCalculations =
      calculatedState.bondCalculations :=
  c9_required_error InputField.couponRate JSValue.undef calculatedState
    (Or.inl rfl) (Or.inl rfl)
